import Mathlib

/-!
Verification development for the Property-market-analysis repository.

The Python sources under `src/` are shallowly embedded as Lean definitions:

* `compare_models` and `compare_sales_volume_sarima_models` embed the SARIMA
  model-search loops of `src/statistical_models.py`, with the statsmodels
  fitting primitive abstracted as a function returning `Except String` (a
  raised exception becomes `Except.error msg`), AIC/BIC values as rationals,
  and the float sentinel `float(inf)` used for failed fits as `⊤ : WithTop ℚ`.
* `pyMin` embeds the semantics of the Python builtin `min(xs, key=...)`:
  the current minimum is replaced only on a strictly smaller key, so the
  first element attaining the minimal key is returned.
* `resolveSeasonalOrder` embeds the seasonal-order defaulting of
  `fit_sarima_model`; `forecast_2025` embeds the forecast re-indexing of
  `src/statistical_models.py` with calendar timestamps abstracted to integer
  period numbers (one unit of the active frequency per step).
* `prepare_london_time_series` and `prepare_london_sales_volume_time_series`
  embed the series builders of `src/time_series_analysis.py`; the pandas
  `resample` operation is embedded per its documented semantics (a
  contiguous, ascending range of period buckets from the earliest to the
  latest observed bucket), with the date-to-bucket map of each calendar
  frequency abstracted as a function parameter.
* `check_stationarity` and `d_param` embed the stationarity decision rule
  and differencing-order recommendation of `src/time_series_analysis.py`,
  with the ADF p-value computation abstracted as a function parameter.
* `run_all`, `collect_best_models` and `overall_best` embed the aggregation
  loop of `scripts/sarima_model_comparison.py`.
-/

/-- Embedding of the Python builtin min over a nonempty prefix: fold that
replaces the accumulator only when the new key is strictly smaller, hence
keeps the earliest element attaining the minimum. -/
def pyFoldMin {α β : Type} [LinearOrder β] (key : α → β) (acc : α) : List α → α
  | [] => acc
  | y :: ys => pyFoldMin key (if key y < key acc then y else acc) ys

/-- Embedding of Python min(l, key) for a possibly empty list, returning
none on the empty list (Python would raise; the call sites guard on
nonemptiness first). -/
def pyMin {α β : Type} [LinearOrder β] (key : α → β) : List α → Option α
  | [] => none
  | x :: xs => some (pyFoldMin key x xs)

theorem pyFoldMin_cons {α β : Type} [LinearOrder β] (key : α → β) (acc y : α)
    (ys : List α) :
    pyFoldMin key acc (y :: ys)
      = pyFoldMin key (if key y < key acc then y else acc) ys := rfl

theorem pyFoldMin_le_acc {α β : Type} [LinearOrder β] (key : α → β) :
    ∀ (l : List α) (acc : α), key (pyFoldMin key acc l) ≤ key acc
  | [], _ => le_refl _
  | y :: ys, acc => by
    rw [pyFoldMin_cons]
    by_cases h : key y < key acc
    · rw [if_pos h]
      exact le_trans (pyFoldMin_le_acc key ys y) (le_of_lt h)
    · rw [if_neg h]
      exact pyFoldMin_le_acc key ys acc

theorem pyFoldMin_spec {α β : Type} [LinearOrder β] (key : α → β) :
    ∀ (l : List α) (acc : α), ∃ l₁ l₂ : List α,
      acc :: l = l₁ ++ pyFoldMin key acc l :: l₂ ∧
      (∀ z ∈ l₁, key (pyFoldMin key acc l) < key z) ∧
      (∀ z ∈ l₂, key (pyFoldMin key acc l) ≤ key z)
  | [], acc => ⟨[], [], rfl, by simp, by simp⟩
  | y :: ys, acc => by
    rw [pyFoldMin_cons]
    by_cases h : key y < key acc
    · rw [if_pos h]
      obtain ⟨l₁, l₂, heq, hlt, hle⟩ := pyFoldMin_spec key ys y
      refine ⟨acc :: l₁, l₂, by simpa using heq, ?_, hle⟩
      intro z hz
      rcases List.mem_cons.mp hz with hz | hz
      · subst hz
        exact lt_of_le_of_lt (pyFoldMin_le_acc key ys y) h
      · exact hlt z hz
    · rw [if_neg h]
      obtain ⟨l₁, l₂, heq, hlt, hle⟩ := pyFoldMin_spec key ys acc
      cases l₁ with
      | nil =>
        simp only [List.nil_append] at heq
        injection heq with hacc hys
        refine ⟨[], y :: ys, by rw [List.nil_append, ← hacc], by simp, ?_⟩
        intro z hz
        rcases List.mem_cons.mp hz with hz | hz
        · subst hz
          rw [← hacc]
          exact le_of_not_lt h
        · exact hle z (hys ▸ hz)
      | cons a l₁' =>
        simp only [List.cons_append] at heq
        injection heq with hacc hys
        refine ⟨acc :: y :: l₁', l₂, congrArg (fun t => acc :: y :: t) hys, ?_, hle⟩
        have haccmem : acc ∈ a :: l₁' := hacc ▸ List.mem_cons_self a l₁'
        have hltacc : key (pyFoldMin key acc ys) < key acc := hlt acc haccmem
        intro z hz
        rcases List.mem_cons.mp hz with hz | hz
        · subst hz; exact hltacc
        rcases List.mem_cons.mp hz with hz | hz
        · subst hz
          exact lt_of_lt_of_le hltacc (le_of_not_lt h)
        · exact hlt z (List.mem_cons_of_mem a hz)

theorem pyMin_eq_none_iff {α β : Type} [LinearOrder β] (key : α → β) (l : List α) :
    pyMin key l = none ↔ l = [] := by
  cases l with
  | nil => simp [pyMin]
  | cons x xs => simp [pyMin]

theorem pyMin_spec {α β : Type} [LinearOrder β] (key : α → β) (l : List α) (x : α)
    (h : pyMin key l = some x) :
    ∃ l₁ l₂ : List α, l = l₁ ++ x :: l₂ ∧
      (∀ y ∈ l₁, key x < key y) ∧ (∀ y ∈ l₂, key x ≤ key y) := by
  cases l with
  | nil => cases h
  | cons a xs =>
    simp only [pyMin, Option.some.injEq] at h
    obtain ⟨l₁, l₂, heq, hlt, hle⟩ := pyFoldMin_spec key xs a
    rw [h] at heq hlt hle
    exact ⟨l₁, l₂, heq, hlt, hle⟩

theorem pyMin_mem {α β : Type} [LinearOrder β] (key : α → β) (l : List α) (x : α)
    (h : pyMin key l = some x) : x ∈ l := by
  obtain ⟨l₁, l₂, heq, _, _⟩ := pyMin_spec key l x h
  rw [heq]
  exact List.mem_append.mpr (Or.inr (List.mem_cons_self _ _))

theorem pyMin_le {α β : Type} [LinearOrder β] (key : α → β) (l : List α) (x : α)
    (h : pyMin key l = some x) : ∀ y ∈ l, key x ≤ key y := by
  obtain ⟨l₁, l₂, heq, hlt, hle⟩ := pyMin_spec key l x h
  intro y hy
  rw [heq] at hy
  rcases List.mem_append.mp hy with hy | hy
  · exact le_of_lt (hlt y hy)
  rcases List.mem_cons.mp hy with hy | hy
  · subst hy; exact le_refl _
  · exact hle y hy

/-- SARIMA non-seasonal order tuple (p, d, q). -/
abbrev Order3 := ℤ × ℤ × ℤ

/-- SARIMA seasonal order tuple (P, D, Q, s). -/
abbrev Order4 := ℤ × ℤ × ℤ × ℤ

/-- Diagnostics read off a fitted model handle by the search loops: the opaque
handle plus its AIC and BIC scores (statsmodels floats, embedded as rationals). -/
structure FitOk (Handle : Type) where
  handle : Handle
  aic : ℚ
  bic : ℚ

/-- Abstraction of fit_sarima_model as seen from the search loops: given the
order and seasonal order it either returns a fitted handle with AIC/BIC or
raises, which is embedded as Except.error carrying str(e). The time series is
fixed inside the function (the Python closure passes ts unchanged). -/
abbrev Fitter (Handle : Type) := Order3 → Order4 → Except String (FitOk Handle)

/-- One entry of the results list built by compare_models: the Python dict
with keys order, seasonal_order, model, aic, bic, success, error (error is
absent on success; aic and bic are float(inf) on failure, embedded as ⊤). -/
structure MEntry (Handle : Type) where
  order : Order3
  seasonal_order : Order4
  model : Option Handle
  aic : WithTop ℚ
  bic : WithTop ℚ
  success : Bool
  error : Option String
deriving DecidableEq

/-- Return value of compare_models: the full results list and the best model
(None when no candidate fitted successfully). -/
structure CompareOutput (Handle : Type) where
  results : List (MEntry Handle)
  best_model : Option (MEntry Handle)
deriving DecidableEq

/-- Body of the try/except block of compare_models for a single candidate:
a successful fit appends a success entry with the model diagnostics, an
exception appends a failure entry with model None, aic = bic = inf and the
error message. -/
def evalModelConfig {Handle : Type} (fit : Fitter Handle) (c : Order3 × Order4) :
    MEntry Handle :=
  match fit c.1 c.2 with
  | Except.ok r =>
      { order := c.1, seasonal_order := c.2, model := some r.handle,
        aic := (r.aic : WithTop ℚ), bic := (r.bic : WithTop ℚ),
        success := true, error := none }
  | Except.error e =>
      { order := c.1, seasonal_order := c.2, model := none,
        aic := ⊤, bic := ⊤, success := false, error := some e }

/-- Embedding of compare_models of src/statistical_models.py: evaluate every
candidate in order, then pick min(successful_results, key=aic) as the best
model, or None when no candidate succeeded. -/
def compare_models {Handle : Type} (fit : Fitter Handle)
    (model_configs : List (Order3 × Order4)) : CompareOutput Handle :=
  let results := model_configs.map (evalModelConfig fit)
  let successful_results := results.filter (fun r => r.success)
  { results := results,
    best_model := pyMin (fun r => r.aic) successful_results }

/-- One entry of the results list built by compare_sales_volume_sarima_models:
the Python dict with keys label, order, seasonal_order, model, forecast,
forecast_ci, aic, bic, success, error. The forecast payloads are opaque types
F and G produced by forecast_2025 on the fitted handle. -/
structure VEntry (Handle F G : Type) where
  label : String
  order : Order3
  seasonal_order : Order4
  model : Option Handle
  forecast : Option F
  forecast_ci : Option G
  aic : WithTop ℚ
  bic : WithTop ℚ
  success : Bool
  error : Option String
deriving DecidableEq

/-- Return value of compare_sales_volume_sarima_models: results list, best
model (or None) and the number of successful fits. -/
structure VolOutput (Handle F G : Type) where
  results : List (VEntry Handle F G)
  best_model : Option (VEntry Handle F G)
  successful_count : ℕ
deriving DecidableEq

/-- Body of the try/except block of compare_sales_volume_sarima_models for a
single (order, seasonal_order, label) candidate. On success the loop also
calls forecast_2025 with steps = min(26, len(ts) // 6), abstracted here as the
total function fcst on the fitted handle. -/
def evalVolConfig {Handle F G : Type} (fit : Fitter Handle)
    (fcst : Handle → ℕ → F × G) (tsLen : ℕ)
    (c : Order3 × Order4 × String) : VEntry Handle F G :=
  match fit c.1 c.2.1 with
  | Except.ok r =>
      let fg := fcst r.handle (min 26 (tsLen / 6))
      { label := c.2.2, order := c.1, seasonal_order := c.2.1,
        model := some r.handle, forecast := some fg.1, forecast_ci := some fg.2,
        aic := (r.aic : WithTop ℚ), bic := (r.bic : WithTop ℚ),
        success := true, error := none }
  | Except.error e =>
      { label := c.2.2, order := c.1, seasonal_order := c.2.1,
        model := none, forecast := none, forecast_ci := none,
        aic := ⊤, bic := ⊤, success := false, error := some e }

/-- Embedding of compare_sales_volume_sarima_models of
src/statistical_models.py (plotting and table printing omitted as pure
output sinks): evaluate every candidate in order, pick
min(successful_results, key=aic) or None, and report the success count. -/
def compare_sales_volume_sarima_models {Handle F G : Type} (fit : Fitter Handle)
    (fcst : Handle → ℕ → F × G) (tsLen : ℕ)
    (model_configs : List (Order3 × Order4 × String)) : VolOutput Handle F G :=
  let results := model_configs.map (evalVolConfig fit fcst tsLen)
  let successful_results := results.filter (fun r => r.success)
  { results := results,
    best_model := pyMin (fun r => r.aic) successful_results,
    successful_count := successful_results.length }

/-- Seasonal-order defaulting of fit_sarima_model of
src/statistical_models.py: when seasonal_order is None it becomes
(0, 1, 1, 52) for series longer than 100 points (weekly data) and
(0, 1, 1, 12) otherwise (monthly data). -/
def resolveSeasonalOrder (tsLen : ℕ) (seasonal_order : Option Order4) : Order4 :=
  match seasonal_order with
  | some s => s
  | none => if tsLen > 100 then (0, 1, 1, 52) else (0, 1, 1, 12)

/-- Steps defaulting of forecast_2025: 52 when the series index is longer
than 100 points (weekly data), else 12 (monthly data). -/
def resolveForecastSteps (steps : Option ℕ) (tsIndexLen : ℕ) : ℕ :=
  match steps with
  | some s => s
  | none => if tsIndexLen > 100 then 52 else 12

/-- Forecast date index of forecast_2025: steps consecutive periods starting
one unit of the active frequency after the last input timestamp. Timestamps
are embedded as integer period numbers of that frequency (one week or one
month per unit, per the pandas date_range call). -/
def forecastDates (lastDate : ℤ) (steps : ℕ) : List ℤ :=
  (List.range steps).map (fun i : ℕ => lastDate + 1 + (i : ℤ))

/-- Embedding of forecast_2025 of src/statistical_models.py for the branch
in which a series index is supplied. The statsmodels calls
model_result.forecast(steps) and get_forecast(steps).conf_int() are
abstracted as the functions predict and confInt; the function pairs their
outputs with the freshly built forecast date index (the Python code assigns
that index to both pandas objects). -/
def forecast_2025 (predict : ℕ → List ℚ) (confInt : ℕ → List (ℚ × ℚ))
    (steps : Option ℕ) (tsIndex : List ℤ) :
    List (ℤ × ℚ) × List (ℤ × (ℚ × ℚ)) :=
  let s := resolveForecastSteps steps tsIndex.length
  let forecast_dates := forecastDates (tsIndex.getLastD 0) s
  (forecast_dates.zip (predict s), forecast_dates.zip (confInt s))

/-- Inputs of one frequency block of the main loop of
scripts/sarima_model_comparison.py: a frequency name, the abstracted fitter
and forecaster for the series of that frequency, the series length and the
candidate list. -/
structure RunSpec (Handle F G : Type) where
  freqName : String
  fit : Fitter Handle
  fcst : Handle → ℕ → F × G
  tsLen : ℕ
  configs : List (Order3 × Order4 × String)

/-- The main loop of scripts/sarima_model_comparison.py: run the sales-volume
comparison once per frequency, keeping (frequency name, comparison result). -/
def run_all {Handle F G : Type} (runs : List (RunSpec Handle F G)) :
    List (String × VolOutput Handle F G) :=
  runs.map (fun s => (s.freqName, compare_sales_volume_sarima_models s.fit s.fcst s.tsLen s.configs))

/-- The best_models aggregation of scripts/sarima_model_comparison.py lines
83-92: for every frequency block with at least one success, record the
frequency name together with the label and AIC of that block reported best
model. -/
def collect_best_models {Handle F G : Type}
    (all_results : List (String × VolOutput Handle F G)) :
    List (String × String × WithTop ℚ) :=
  all_results.filterMap (fun r =>
    if r.2.successful_count > 0 then
      r.2.best_model.map (fun b => (r.1, b.label, b.aic))
    else none)

/-- The overall-best selection of scripts/sarima_model_comparison.py lines
94-96: min(best_models, key=aic), or the no-winner branch when best_models
is empty. -/
def overall_best {Handle F G : Type}
    (all_results : List (String × VolOutput Handle F G)) :
    Option (String × String × WithTop ℚ) :=
  pyMin (fun x => x.2.2) (collect_best_models all_results)

/-- One row of the cleaned property table as used by the series builders:
a sale price, a sale date (embedded as an integer day number) and the
postcode area string. Other columns are never read by these functions. -/
structure PropertyRow where
  price : ℚ
  date : ℤ
  postcodeArea : String
deriving DecidableEq

/-- The London postcode area set of src/data_filters.py. -/
def LONDON_POSTCODES : List String :=
  ["EC", "WC", "E", "N", "NW", "SE", "SW", "W",
   "BR", "CR", "DA", "EN", "HA", "IG", "KT", "RM", "SM", "TW", "UB", "WD"]

/-- Embedding of filter_london_properties of src/data_filters.py: keep the
rows whose postcode area is in the London set. -/
def filter_london_properties (df : List PropertyRow) : List PropertyRow :=
  df.filter (fun r => LONDON_POSTCODES.contains r.postcodeArea)

/-- The resample output index per the pandas semantics: the contiguous,
ascending range of period buckets from the earliest observed bucket to the
latest one, empty for an empty input. The date-to-bucket map of the calendar
frequency in use is the parameter bucket. -/
def bucketRange (bucket : ℤ → ℤ) (dates : List ℤ) : List ℤ :=
  match dates.map bucket with
  | [] => []
  | b :: bs =>
      let lo := bs.foldl min b
      let hi := bs.foldl max b
      (List.range (hi - lo + 1).toNat).map (fun i : ℕ => lo + (i : ℤ))

/-- Mean of a list of rationals, none for the empty list (the NaN a pandas
mean aggregation leaves in an empty bucket). -/
def meanOpt (xs : List ℚ) : Option ℚ :=
  if xs.isEmpty then none else some (xs.sum / xs.length)

/-- Embedding of resample(freq).mean() on a (date, price) table: one output
point per bucket of the contiguous bucket range, holding the mean of the
prices falling in that bucket, or none (NaN) for an empty bucket. -/
def resampleMean (bucket : ℤ → ℤ) (rows : List (ℤ × ℚ)) : List (ℤ × Option ℚ) :=
  (bucketRange bucket (rows.map (fun r => r.1))).map (fun b =>
    (b, meanOpt ((rows.filter (fun r => bucket r.1 = b)).map (fun r => r.2))))

/-- Embedding of resample(freq).size() on a (date, price) table: one output
point per bucket of the contiguous bucket range, holding the number of rows
falling in that bucket (0 for an empty bucket, so the subsequent fillna(0)
of the Python code is the identity). -/
def resampleSize (bucket : ℤ → ℤ) (rows : List (ℤ × ℚ)) : List (ℤ × ℕ) :=
  (bucketRange bucket (rows.map (fun r => r.1))).map (fun b =>
    (b, (rows.filter (fun r => bucket r.1 = b)).length))

/-- Embedding of Series.dropna on an indexed series with optional values:
keep only the points whose value is present. -/
def dropna (ts : List (ℤ × Option ℚ)) : List (ℤ × ℚ) :=
  ts.filterMap (fun p => p.2.map (fun v => (p.1, v)))

/-- Error raised by the series builders on an unrecognized frequency
argument (the Python ValueError with its message). -/
inductive PrepError where
  | valueError (msg : String)
deriving DecidableEq

instance exceptDecidableEq {ε α : Type} [DecidableEq ε] [DecidableEq α] :
    DecidableEq (Except ε α) := fun x y =>
  match x, y with
  | Except.ok a, Except.ok b =>
      if h : a = b then isTrue (by rw [h])
      else isFalse (by intro hc; injection hc with hc; exact h hc)
  | Except.ok _, Except.error _ => isFalse (fun hc => Except.noConfusion hc)
  | Except.error _, Except.ok _ => isFalse (fun hc => Except.noConfusion hc)
  | Except.error a, Except.error b =>
      if h : a = b then isTrue (by rw [h])
      else isFalse (by intro hc; injection hc with hc; exact h hc)

/-- Embedding of prepare_london_time_series of src/time_series_analysis.py:
filter to London rows, resample the price column at the requested frequency
taking bucket means, drop NaN buckets; frequencies other than W, M and Q
raise ValueError. The date-to-bucket maps of the three calendar frequencies
are the parameters perW, perM and perQ. -/
def prepare_london_time_series (perW perM perQ : ℤ → ℤ)
    (df : List PropertyRow) (freq : String) :
    Except PrepError (List (ℤ × ℚ)) :=
  let london := filter_london_properties df
  let rows := london.map (fun r => (r.date, r.price))
  if freq = "W" then Except.ok (dropna (resampleMean perW rows))
  else if freq = "M" then Except.ok (dropna (resampleMean perM rows))
  else if freq = "Q" then Except.ok (dropna (resampleMean perQ rows))
  else Except.error (PrepError.valueError
    "Frequency must be W (weekly), M (monthly) or Q (quarterly)")

/-- Embedding of prepare_london_sales_volume_time_series of
src/time_series_analysis.py: filter to London rows, resample at the
requested frequency counting rows per bucket (fillna(0) is the identity on
integer counts); frequencies other than M and W raise ValueError. -/
def prepare_london_sales_volume_time_series (perM perW : ℤ → ℤ)
    (df : List PropertyRow) (freq : String) :
    Except PrepError (List (ℤ × ℕ)) :=
  let london := filter_london_properties df
  let rows := london.map (fun r => (r.date, r.price))
  if freq = "M" then Except.ok (resampleSize perM rows)
  else if freq = "W" then Except.ok (resampleSize perW rows)
  else Except.error (PrepError.valueError
    "Frequency must be M (monthly) or W (weekly)")

/-- Embedding of check_stationarity of src/time_series_analysis.py: the ADF
computation (statsmodels adfuller) is abstracted as the p-value function
adfPValue; the verdict is stationary exactly when the p-value is at most
0.05. -/
def check_stationarity (adfPValue : List ℚ → ℚ) (ts : List ℚ) : Bool :=
  adfPValue ts ≤ (5 : ℚ) / 100

/-- Embedding of ts.diff().dropna(): the list of consecutive differences
value[i+1] - value[i], one element shorter than the input (the leading NaN
of pandas diff is dropped). -/
def firstDifference (ts : List ℚ) : List ℚ :=
  (ts.zip ts.tail).map (fun p => p.2 - p.1)

/-- The differencing-order recommendation of analyze_sarima_parameters of
src/time_series_analysis.py: d = 1 if the original series is non-stationary
and its first difference is stationary, else d = 0. -/
def d_param (adfPValue : List ℚ → ℚ) (ts : List ℚ) : ℕ :=
  if ¬ check_stationarity adfPValue ts = true
      ∧ check_stationarity adfPValue (firstDifference ts) = true
  then 1 else 0

theorem filter_split {α : Type} (p : α → Bool) :
    ∀ (l f₁ f₂ : List α) (x : α), l.filter p = f₁ ++ x :: f₂ →
      ∃ l₁ l₂ : List α, l = l₁ ++ x :: l₂ ∧ l₁.filter p = f₁ ∧ l₂.filter p = f₂
  | [], f₁, f₂, x, h => by simp at h
  | a :: l, f₁, f₂, x, h => by
    by_cases hp : p a = true
    · rw [List.filter_cons_of_pos hp] at h
      cases f₁ with
      | nil =>
        simp only [List.nil_append] at h
        injection h with h1 h2
        exact ⟨[], l, by rw [List.nil_append, h1], rfl, h2⟩
      | cons b f₁' =>
        simp only [List.cons_append] at h
        injection h with h1 h2
        obtain ⟨l₁, l₂, hl, hf1, hf2⟩ := filter_split p l f₁' f₂ x h2
        exact ⟨a :: l₁, l₂, by rw [List.cons_append, hl],
          by rw [List.filter_cons_of_pos hp, hf1, h1], hf2⟩
    · rw [List.filter_cons_of_neg hp] at h
      obtain ⟨l₁, l₂, hl, hf1, hf2⟩ := filter_split p l f₁ f₂ x h
      exact ⟨a :: l₁, l₂, by rw [List.cons_append, hl],
        by rw [List.filter_cons_of_neg hp, hf1], hf2⟩

theorem pyMin_filter_none_iff {α β : Type} [LinearOrder β] (key : α → β)
    (p : α → Bool) (l : List α) :
    pyMin key (l.filter p) = none ↔ ∀ e ∈ l, p e = false := by
  rw [pyMin_eq_none_iff, List.filter_eq_nil_iff]
  constructor
  · intro h e he
    exact Bool.not_eq_true _ ▸ (by simpa using h e he)
  · intro h e he
    simp [h e he]

theorem pyMin_filter_some {α β : Type} [LinearOrder β] (key : α → β)
    (p : α → Bool) (l : List α) (b : α) (hb : pyMin key (l.filter p) = some b) :
    p b = true ∧ (∀ e ∈ l, p e = true → key b ≤ key e) ∧
      ∃ l₁ l₂ : List α, l = l₁ ++ b :: l₂ ∧ ∀ e ∈ l₁, p e = true → key b < key e := by
  obtain ⟨f₁, f₂, hsplit, hlt, _⟩ := pyMin_spec key (l.filter p) b hb
  have hbmem : b ∈ l.filter p := by
    rw [hsplit]
    exact List.mem_append.mpr (Or.inr (List.mem_cons_self _ _))
  refine ⟨(List.mem_filter.mp hbmem).2, ?_, ?_⟩
  · intro e he hpe
    exact pyMin_le key (l.filter p) b hb e (List.mem_filter.mpr ⟨he, hpe⟩)
  · obtain ⟨l₁, l₂, hl, hf1, _⟩ := filter_split p l f₁ f₂ b hsplit
    refine ⟨l₁, l₂, hl, ?_⟩
    intro e he hpe
    exact hlt e (hf1 ▸ List.mem_filter.mpr ⟨he, hpe⟩)

/-- Demonstration fitter used to instantiate the search-engine theorems on
concrete inputs: orders with p = 0 or p = 1 fit (with tied AIC 7), anything
else raises. -/
def demoFit : Fitter Unit := fun o _ =>
  if o.1 = 0 then Except.ok ⟨(), 7, 8⟩
  else if o.1 = 1 then Except.ok ⟨(), 7, 9⟩
  else Except.error "LU decomposition error"

/-- Demonstration candidate list: the first candidate fails, the second and
third succeed with equal AIC, so the stable minimum is the second. -/
def demoCfgs : List (Order3 × Order4) :=
  [((2, 1, 2), (1, 1, 1, 12)), ((0, 1, 1), (0, 1, 1, 12)), ((1, 1, 1), (0, 1, 1, 12))]

/-- The entry compare_models reports as best on the demonstration inputs. -/
def demoBest : MEntry Unit :=
  { order := (0, 1, 1), seasonal_order := (0, 1, 1, 12), model := some (),
    aic := ((7 : ℚ) : WithTop ℚ), bic := ((8 : ℚ) : WithTop ℚ),
    success := true, error := none }

/-- Demonstration forecaster for the sales-volume search. -/
def demoFcst : Unit → ℕ → ℕ × ℕ := fun _ n => (n, n + 1)

/-- Demonstration labelled candidate list for the sales-volume search. -/
def demoVolCfgs : List (Order3 × Order4 × String) :=
  [((2, 1, 2), (1, 1, 1, 12), "Complex Model"),
   ((1, 1, 0), (1, 1, 0, 12), "AR with Seasonal"),
   ((0, 1, 1), (0, 1, 1, 12), "Pure MA")]

/-- The entry compare_sales_volume_sarima_models reports as best on the
demonstration inputs (series length 60, so forecast steps = min 26 10 = 10). -/
def demoVolBest : VEntry Unit ℕ ℕ :=
  { label := "AR with Seasonal", order := (1, 1, 0), seasonal_order := (1, 1, 0, 12),
    model := some (), forecast := some 10, forecast_ci := some 11,
    aic := ((7 : ℚ) : WithTop ℚ), bic := ((9 : ℚ) : WithTop ℚ),
    success := true, error := none }

/-- C1: for every series (fixed inside the abstracted fitter) and every
candidate list, the best model returned by the model search is None exactly
when no candidate succeeds (a normal non-error result), and otherwise it is
a Success outcome of minimum AIC whose position is the earliest among the
successes attaining that minimum; this holds for both compare_models and
compare_sales_volume_sarima_models. -/
theorem best_model_is_minimum_aic_success {Handle F G : Type}
    (fit : Fitter Handle) (configs : List (Order3 × Order4))
    (vfit : Fitter Handle) (vfcst : Handle → ℕ → F × G) (vtsLen : ℕ)
    (vconfigs : List (Order3 × Order4 × String)) :
    (((compare_models fit configs).best_model = none ↔
        ∀ e ∈ (compare_models fit configs).results, e.success = false) ∧
      ∀ b, (compare_models fit configs).best_model = some b →
        b.success = true ∧
        (∀ e ∈ (compare_models fit configs).results, e.success = true → b.aic ≤ e.aic) ∧
        ∃ l₁ l₂, (compare_models fit configs).results = l₁ ++ b :: l₂ ∧
          ∀ e ∈ l₁, e.success = true → b.aic < e.aic) ∧
    (((compare_sales_volume_sarima_models vfit vfcst vtsLen vconfigs).best_model = none ↔
        ∀ e ∈ (compare_sales_volume_sarima_models vfit vfcst vtsLen vconfigs).results,
          e.success = false) ∧
      ∀ b, (compare_sales_volume_sarima_models vfit vfcst vtsLen vconfigs).best_model = some b →
        b.success = true ∧
        (∀ e ∈ (compare_sales_volume_sarima_models vfit vfcst vtsLen vconfigs).results,
          e.success = true → b.aic ≤ e.aic) ∧
        ∃ l₁ l₂, (compare_sales_volume_sarima_models vfit vfcst vtsLen vconfigs).results
            = l₁ ++ b :: l₂ ∧
          ∀ e ∈ l₁, e.success = true → b.aic < e.aic) := by
  constructor
  · exact ⟨pyMin_filter_none_iff _ _ _, fun b hb => pyMin_filter_some _ _ _ b hb⟩
  · exact ⟨pyMin_filter_none_iff _ _ _, fun b hb => pyMin_filter_some _ _ _ b hb⟩

/-- Witness for C1 at the demonstration inputs: the best model exists, is a
success, has minimal AIC, and sits before the tied third candidate. -/
theorem best_model_is_minimum_aic_success_witness :
    ((compare_models demoFit demoCfgs).best_model = some demoBest ∧
      demoBest.success = true ∧
      (∀ e ∈ (compare_models demoFit demoCfgs).results,
        e.success = true → demoBest.aic ≤ e.aic)) ∧
    ((compare_sales_volume_sarima_models demoFit demoFcst 60 demoVolCfgs).best_model
        = some demoVolBest ∧
      demoVolBest.success = true) := by
  have h1 : (compare_models demoFit demoCfgs).best_model = some demoBest := by decide
  have h2 : (compare_sales_volume_sarima_models demoFit demoFcst 60 demoVolCfgs).best_model
      = some demoVolBest := by decide
  have main := best_model_is_minimum_aic_success demoFit demoCfgs demoFit demoFcst 60 demoVolCfgs
  obtain ⟨hs, hle, _⟩ := main.1.2 demoBest h1
  obtain ⟨hs2, _, _⟩ := main.2.2 demoVolBest h2
  exact ⟨⟨h1, hs, hle⟩, ⟨h2, hs2⟩⟩

theorem evalModelConfig_success_eq {Handle : Type} (fit : Fitter Handle)
    (c : Order3 × Order4) :
    (evalModelConfig fit c).success = (fit c.1 c.2).isOk := by
  cases h : fit c.1 c.2 <;> simp [evalModelConfig, h, Except.isOk, Except.toBool]

theorem evalVolConfig_success_eq {Handle F G : Type} (fit : Fitter Handle)
    (fcst : Handle → ℕ → F × G) (tsLen : ℕ) (c : Order3 × Order4 × String) :
    (evalVolConfig fit fcst tsLen c).success = (fit c.1 c.2.1).isOk := by
  cases h : fit c.1 c.2.1 <;> simp [evalVolConfig, h, Except.isOk, Except.toBool]

/-- C2: both model searches return exactly one outcome per candidate, in the
candidate order: outcome i carries candidate i's order data, is a Success
with the fitted handle's diagnostics when the fitter returns, and is a
Failure carrying the error message when the fitter raises; a failure never
stops later candidates (every candidate has an outcome) and the searches are
total functions (no exception escapes); the number of Success outcomes
equals the number of candidates whose fit succeeds. -/
theorem search_returns_one_outcome_per_candidate {Handle F G : Type}
    (fit : Fitter Handle) (configs : List (Order3 × Order4))
    (vfit : Fitter Handle) (vfcst : Handle → ℕ → F × G) (vtsLen : ℕ)
    (vconfigs : List (Order3 × Order4 × String)) :
    ((compare_models fit configs).results.length = configs.length ∧
      List.Forall₂ (fun (c : Order3 × Order4) (e : MEntry Handle) =>
          e.order = c.1 ∧ e.seasonal_order = c.2 ∧
          (∀ r, fit c.1 c.2 = Except.ok r →
            e.success = true ∧ e.model = some r.handle ∧
            e.aic = (r.aic : WithTop ℚ) ∧ e.bic = (r.bic : WithTop ℚ) ∧ e.error = none) ∧
          (∀ msg, fit c.1 c.2 = Except.error msg →
            e.success = false ∧ e.error = some msg))
        configs (compare_models fit configs).results ∧
      ((compare_models fit configs).results.filter (fun e => e.success)).length
        = (configs.filter (fun c => (fit c.1 c.2).isOk)).length) ∧
    ((compare_sales_volume_sarima_models vfit vfcst vtsLen vconfigs).results.length
        = vconfigs.length ∧
      List.Forall₂ (fun (c : Order3 × Order4 × String) (e : VEntry Handle F G) =>
          e.label = c.2.2 ∧ e.order = c.1 ∧ e.seasonal_order = c.2.1 ∧
          (∀ r, vfit c.1 c.2.1 = Except.ok r →
            e.success = true ∧ e.model = some r.handle ∧
            e.aic = (r.aic : WithTop ℚ) ∧ e.bic = (r.bic : WithTop ℚ) ∧ e.error = none) ∧
          (∀ msg, vfit c.1 c.2.1 = Except.error msg →
            e.success = false ∧ e.error = some msg))
        vconfigs (compare_sales_volume_sarima_models vfit vfcst vtsLen vconfigs).results ∧
      (compare_sales_volume_sarima_models vfit vfcst vtsLen vconfigs).successful_count
        = (vconfigs.filter (fun c => (vfit c.1 c.2.1).isOk)).length) := by
  refine ⟨⟨List.length_map _ _, ?_, ?_⟩, ⟨List.length_map _ _, ?_, ?_⟩⟩
  · show List.Forall₂ _ configs (configs.map (evalModelConfig fit))
    rw [List.forall₂_map_right_iff, List.forall₂_same]
    intro c _
    cases h : fit c.1 c.2 with
    | ok r =>
      refine ⟨by simp [evalModelConfig, h], by simp [evalModelConfig, h], ?_, ?_⟩
      · intro r' hr'
        injection hr' with hr'
        subst hr'
        simp [evalModelConfig, h]
      · intro msg hmsg
        exact Except.noConfusion hmsg
    | error msg =>
      refine ⟨by simp [evalModelConfig, h], by simp [evalModelConfig, h], ?_, ?_⟩
      · intro r' hr'
        exact Except.noConfusion hr'
      · intro msg' hmsg
        injection hmsg with hmsg
        subst hmsg
        simp [evalModelConfig, h]
  · show ((configs.map (evalModelConfig fit)).filter (fun e => e.success)).length = _
    rw [List.filter_map, List.length_map]
    congr 1
    exact List.filter_congr (fun c _ => evalModelConfig_success_eq fit c)
  · show List.Forall₂ _ vconfigs (vconfigs.map (evalVolConfig vfit vfcst vtsLen))
    rw [List.forall₂_map_right_iff, List.forall₂_same]
    intro c _
    cases h : vfit c.1 c.2.1 with
    | ok r =>
      refine ⟨by simp [evalVolConfig, h], by simp [evalVolConfig, h],
        by simp [evalVolConfig, h], ?_, ?_⟩
      · intro r' hr'
        injection hr' with hr'
        subst hr'
        simp [evalVolConfig, h]
      · intro msg hmsg
        exact Except.noConfusion hmsg
    | error msg =>
      refine ⟨by simp [evalVolConfig, h], by simp [evalVolConfig, h],
        by simp [evalVolConfig, h], ?_, ?_⟩
      · intro r' hr'
        exact Except.noConfusion hr'
      · intro msg' hmsg
        injection hmsg with hmsg
        subst hmsg
        simp [evalVolConfig, h]
  · show ((vconfigs.map (evalVolConfig vfit vfcst vtsLen)).filter (fun e => e.success)).length = _
    rw [List.filter_map, List.length_map]
    congr 1
    exact List.filter_congr (fun c _ => evalVolConfig_success_eq vfit vfcst vtsLen c)

/-- Witness for C2 at the demonstration inputs: three candidates give three
outcomes and one of the three fits of demoFit on demoCfgs fails, so exactly
two outcomes are Success. -/
theorem search_returns_one_outcome_per_candidate_witness :
    (compare_models demoFit demoCfgs).results.length = demoCfgs.length ∧
    ((compare_models demoFit demoCfgs).results.filter (fun e => e.success)).length
      = (demoCfgs.filter (fun c => (demoFit c.1 c.2).isOk)).length ∧
    ((compare_models demoFit demoCfgs).results.filter (fun e => e.success)).length = 2 ∧
    (compare_sales_volume_sarima_models demoFit demoFcst 60 demoVolCfgs).successful_count
      = (demoVolCfgs.filter (fun c => (demoFit c.1 c.2.1).isOk)).length := by
  have main := search_returns_one_outcome_per_candidate demoFit demoCfgs
    demoFit demoFcst 60 demoVolCfgs
  exact ⟨main.1.1, main.1.2.2, by decide, main.2.2.2⟩

/-- C9: in both model searches every failed outcome carries the sentinel
values aic = bic = infinity (⊤) and model = None, while the best-model
selection ranges only over outcomes flagged successful, so a reported best
model is always a successful member of the results (with a real model
handle), never a failed outcome. -/
theorem failed_outcomes_sentinels_best_is_success {Handle F G : Type}
    (fit : Fitter Handle) (configs : List (Order3 × Order4))
    (vfit : Fitter Handle) (vfcst : Handle → ℕ → F × G) (vtsLen : ℕ)
    (vconfigs : List (Order3 × Order4 × String)) :
    ((∀ e ∈ (compare_models fit configs).results, e.success = false →
        e.aic = ⊤ ∧ e.bic = ⊤ ∧ e.model = none) ∧
      ∀ b, (compare_models fit configs).best_model = some b →
        b ∈ (compare_models fit configs).results ∧ b.success = true ∧ b.model.isSome = true) ∧
    ((∀ e ∈ (compare_sales_volume_sarima_models vfit vfcst vtsLen vconfigs).results,
        e.success = false → e.aic = ⊤ ∧ e.bic = ⊤ ∧ e.model = none) ∧
      ∀ b, (compare_sales_volume_sarima_models vfit vfcst vtsLen vconfigs).best_model = some b →
        b ∈ (compare_sales_volume_sarima_models vfit vfcst vtsLen vconfigs).results ∧
          b.success = true ∧ b.model.isSome = true) := by
  constructor
  · constructor
    · intro e he hfail
      obtain ⟨c, _, hc⟩ := List.mem_map.mp he
      cases h : fit c.1 c.2 with
      | ok r =>
        rw [← hc] at hfail
        rw [evalModelConfig_success_eq, h] at hfail
        cases hfail
      | error msg =>
        rw [← hc]
        simp [evalModelConfig, h]
    · intro b hb
      have hmem : b ∈ ((compare_models fit configs).results).filter (fun e => e.success) :=
        pyMin_mem _ _ b hb
      have hsucc : b.success = true := (List.mem_filter.mp hmem).2
      refine ⟨(List.mem_filter.mp hmem).1, hsucc, ?_⟩
      obtain ⟨c, _, hc⟩ := List.mem_map.mp (List.mem_filter.mp hmem).1
      cases h : fit c.1 c.2 with
      | ok r => rw [← hc]; simp [evalModelConfig, h]
      | error msg =>
        rw [← hc] at hsucc
        rw [evalModelConfig_success_eq, h] at hsucc
        cases hsucc
  · constructor
    · intro e he hfail
      obtain ⟨c, _, hc⟩ := List.mem_map.mp he
      cases h : vfit c.1 c.2.1 with
      | ok r =>
        rw [← hc] at hfail
        rw [evalVolConfig_success_eq, h] at hfail
        cases hfail
      | error msg =>
        rw [← hc]
        simp [evalVolConfig, h]
    · intro b hb
      have hmem : b ∈ ((compare_sales_volume_sarima_models vfit vfcst vtsLen vconfigs).results).filter
          (fun e => e.success) := pyMin_mem _ _ b hb
      have hsucc : b.success = true := (List.mem_filter.mp hmem).2
      refine ⟨(List.mem_filter.mp hmem).1, hsucc, ?_⟩
      obtain ⟨c, _, hc⟩ := List.mem_map.mp (List.mem_filter.mp hmem).1
      cases h : vfit c.1 c.2.1 with
      | ok r => rw [← hc]; simp [evalVolConfig, h]
      | error msg =>
        rw [← hc] at hsucc
        rw [evalVolConfig_success_eq, h] at hsucc
        cases hsucc

/-- Witness for C9 at the demonstration inputs: the failed first candidate
has the infinite sentinels and no model, and the reported best models are
successes. -/
theorem failed_outcomes_sentinels_best_is_success_witness :
    ((compare_models demoFit demoCfgs).results.getD 0 demoBest).success = false ∧
    ((compare_models demoFit demoCfgs).results.getD 0 demoBest).aic = ⊤ ∧
    ((compare_models demoFit demoCfgs).results.getD 0 demoBest).model = none ∧
    demoBest.success = true ∧ demoBest.model.isSome = true ∧
    demoVolBest.success = true ∧ demoVolBest.model.isSome = true := by
  have main := failed_outcomes_sentinels_best_is_success demoFit demoCfgs
    demoFit demoFcst 60 demoVolCfgs
  have hfst : ((compare_models demoFit demoCfgs).results.getD 0 demoBest)
      ∈ (compare_models demoFit demoCfgs).results := by decide
  have hfail : ((compare_models demoFit demoCfgs).results.getD 0 demoBest).success = false := by
    decide
  obtain ⟨haic, _, hmodel⟩ := main.1.1 _ hfst hfail
  obtain ⟨_, hbs, hbm⟩ := main.1.2 demoBest (by decide)
  obtain ⟨_, hvs, hvm⟩ := main.2.2 demoVolBest (by decide)
  exact ⟨hfail, haic, hmodel, hbs, hbm, hvs, hvm⟩


theorem pyMin_isSome_iff {α β : Type} [LinearOrder β] (key : α → β) (l : List α) :
    (∃ b, pyMin key l = some b) ↔ 0 < l.length := by
  cases l <;> simp [pyMin]

theorem vol_results_eq {Handle F G : Type} (fit : Fitter Handle)
    (fcst : Handle → ℕ → F × G) (tsLen : ℕ)
    (configs : List (Order3 × Order4 × String)) :
    (compare_sales_volume_sarima_models fit fcst tsLen configs).results
      = configs.map (evalVolConfig fit fcst tsLen) := rfl

theorem vol_best_eq {Handle F G : Type} (fit : Fitter Handle)
    (fcst : Handle → ℕ → F × G) (tsLen : ℕ)
    (configs : List (Order3 × Order4 × String)) :
    (compare_sales_volume_sarima_models fit fcst tsLen configs).best_model
      = pyMin (fun e => e.aic)
          ((configs.map (evalVolConfig fit fcst tsLen)).filter (fun e => e.success)) := rfl

theorem vol_count_eq {Handle F G : Type} (fit : Fitter Handle)
    (fcst : Handle → ℕ → F × G) (tsLen : ℕ)
    (configs : List (Order3 × Order4 × String)) :
    (compare_sales_volume_sarima_models fit fcst tsLen configs).successful_count
      = ((configs.map (evalVolConfig fit fcst tsLen)).filter (fun e => e.success)).length := rfl

theorem overall_best_eq {Handle F G : Type}
    (all_results : List (String × VolOutput Handle F G)) :
    overall_best all_results
      = pyMin (fun x => x.2.2) (collect_best_models all_results) := rfl

/-- C8: the overall best model printed by scripts/sarima_model_comparison.py
is None exactly when every frequency block had zero successful fits, and
otherwise its recorded label and AIC come from a Success outcome of some
block whose AIC is minimal among the Success outcomes of ALL blocks. -/
theorem global_best_min_aic_across_comparisons {Handle F G : Type}
    (runs : List (RunSpec Handle F G)) :
    (overall_best (run_all runs) = none ↔
      ∀ r ∈ run_all runs, r.2.successful_count = 0) ∧
    ∀ b, overall_best (run_all runs) = some b →
      (∃ r ∈ run_all runs, ∃ e ∈ r.2.results,
        e.success = true ∧ e.label = b.2.1 ∧ e.aic = b.2.2) ∧
      (∀ r ∈ run_all runs, ∀ e ∈ r.2.results, e.success = true → b.2.2 ≤ e.aic) := by
  have hcomp : ∀ r ∈ run_all runs, ∃ s : RunSpec Handle F G,
      r = (s.freqName, compare_sales_volume_sarima_models s.fit s.fcst s.tsLen s.configs) := by
    intro r hr
    obtain ⟨s, _, hs⟩ := List.mem_map.mp hr
    exact ⟨s, hs.symm⟩
  constructor
  · rw [overall_best_eq, pyMin_eq_none_iff, collect_best_models, List.filterMap_eq_nil_iff]
    constructor
    · intro h r hr
      have hnone := h r hr
      by_contra hc
      have hpos : 0 < r.2.successful_count := Nat.pos_of_ne_zero hc
      obtain ⟨s, hs⟩ := hcomp r hr
      subst hs
      simp only [vol_count_eq] at hpos
      obtain ⟨b, hb⟩ := (pyMin_isSome_iff (fun e => e.aic) _).mpr hpos
      rw [if_pos (by simpa [vol_count_eq] using hpos)] at hnone
      rw [show (s.freqName, compare_sales_volume_sarima_models
            s.fit s.fcst s.tsLen s.configs).2.best_model
          = some b from by rw [vol_best_eq]; exact hb] at hnone
      cases hnone
    · intro h r hr
      rw [if_neg]
      rw [h r hr]
      exact Nat.lt_irrefl 0
  · intro b hb
    have hbmem : b ∈ collect_best_models (run_all runs) := by
      rw [overall_best_eq] at hb
      exact pyMin_mem _ _ b hb
    obtain ⟨r, hr, hfr⟩ := List.mem_filterMap.mp hbmem
    constructor
    · obtain ⟨s, hs⟩ := hcomp r hr
      subst hs
      simp only [collect_best_models] at hfr
      by_cases hc : 0 < (compare_sales_volume_sarima_models
          s.fit s.fcst s.tsLen s.configs).successful_count
      · rw [if_pos hc] at hfr
        obtain ⟨bb, hbb, hbval⟩ := Option.map_eq_some'.mp hfr
        rw [vol_best_eq] at hbb
        have hsucc : bb.success = true ∧ bb ∈ s.configs.map (evalVolConfig s.fit s.fcst s.tsLen) := by
          have := List.mem_filter.mp (pyMin_mem (fun e => e.aic) _ bb hbb)
          exact ⟨this.2, this.1⟩
        refine ⟨_, hr, bb, ?_, hsucc.1, ?_, ?_⟩
        · rw [show (s.freqName, compare_sales_volume_sarima_models
              s.fit s.fcst s.tsLen s.configs).2.results
            = s.configs.map (evalVolConfig s.fit s.fcst s.tsLen) from vol_results_eq ..]
          exact hsucc.2
        · rw [← hbval]
        · rw [← hbval]
      · rw [if_neg hc] at hfr
        cases hfr
    · intro r' hr' e he hse
      obtain ⟨s, hs⟩ := hcomp r' hr'
      subst hs
      rw [vol_results_eq] at he
      have hfmem : e ∈ (s.configs.map (evalVolConfig s.fit s.fcst s.tsLen)).filter
          (fun x => x.success) := List.mem_filter.mpr ⟨he, hse⟩
      have hpos : 0 < ((s.configs.map (evalVolConfig s.fit s.fcst s.tsLen)).filter
          (fun x => x.success)).length := List.length_pos.mpr (List.ne_nil_of_mem hfmem)
      obtain ⟨bb, hbb⟩ := (pyMin_isSome_iff (fun e => e.aic) _).mpr hpos
      have hfr' : (s.freqName, bb.label, bb.aic) ∈ collect_best_models (run_all runs) := by
        refine List.mem_filterMap.mpr ⟨_, hr', ?_⟩
        rw [if_pos (by rw [vol_count_eq]; exact hpos)]
        rw [show (s.freqName, compare_sales_volume_sarima_models
              s.fit s.fcst s.tsLen s.configs).2.best_model
            = some bb from by rw [vol_best_eq]; exact hbb]
        rfl
      have h1 : b.2.2 ≤ bb.aic := by
        rw [overall_best_eq] at hb
        exact pyMin_le (fun x => x.2.2) _ b hb (s.freqName, bb.label, bb.aic) hfr'
      have h2 : bb.aic ≤ e.aic := pyMin_le (fun x => x.aic) _ bb hbb e hfmem
      exact le_trans h1 h2

/-- Demonstration fitter on which every candidate raises. -/
def demoFailFit : Fitter Unit := fun _ _ => Except.error "LinAlgError"

/-- Demonstration frequency blocks for the aggregation script: the weekly
block has two successes, the monthly block has none. -/
def demoRuns : List (RunSpec Unit ℕ ℕ) :=
  [⟨"Weekly", demoFit, demoFcst, 60, demoVolCfgs⟩,
   ⟨"Monthly", demoFailFit, demoFcst, 36, demoVolCfgs⟩]

/-- Witness for C8 at the demonstration blocks: the overall best is the
weekly AR model with AIC 7, which is a Success outcome of one block, and 7
bounds from below the AIC of every Success outcome of every block. -/
theorem global_best_min_aic_across_comparisons_witness :
    overall_best (run_all demoRuns)
      = some ("Weekly", "AR with Seasonal", ((7 : ℚ) : WithTop ℚ)) ∧
    (∃ r ∈ run_all demoRuns, ∃ e ∈ r.2.results,
      e.success = true ∧ e.label = "AR with Seasonal" ∧ e.aic = ((7 : ℚ) : WithTop ℚ)) ∧
    (∀ r ∈ run_all demoRuns, ∀ e ∈ r.2.results,
      e.success = true → ((7 : ℚ) : WithTop ℚ) ≤ e.aic) := by
  have hb : overall_best (run_all demoRuns)
      = some ("Weekly", "AR with Seasonal", ((7 : ℚ) : WithTop ℚ)) := by decide
  have main := (global_best_min_aic_across_comparisons demoRuns).2 _ hb
  exact ⟨hb, main.1, main.2⟩

/-- C3: when fit_sarima_model is invoked without a seasonal order it defaults
to (0,1,1,52) exactly when the series has more than 100 points (inferred
weekly) and to (0,1,1,12) otherwise (inferred monthly); an explicitly given
seasonal order is used unchanged. -/
theorem default_seasonal_order_by_series_length (n : ℕ) :
    (resolveSeasonalOrder n none = (0, 1, 1, 52) ↔ 100 < n) ∧
    (resolveSeasonalOrder n none = (0, 1, 1, 12) ↔ n ≤ 100) ∧
    (∀ s, resolveSeasonalOrder n (some s) = s) := by
  refine ⟨?_, ?_, fun s => rfl⟩
  all_goals by_cases h : n > 100
  all_goals simp [resolveSeasonalOrder, h]
  all_goals omega

theorem firstDifference_length (ts : List ℚ) :
    (firstDifference ts).length = ts.length - 1 := by
  simp [firstDifference]

theorem firstDifference_getD : ∀ (ts : List ℚ) (i : ℕ), i + 1 < ts.length →
    (firstDifference ts).getD i 0 = ts.getD (i + 1) 0 - ts.getD i 0
  | [], i, h => by simp at h
  | [a], i, h => by simp at h
  | a :: b :: rest, 0, h => by simp [firstDifference]
  | a :: b :: rest, i + 1, h => by
    have ih := firstDifference_getD (b :: rest) i (by simpa using h)
    simpa [firstDifference] using ih

/-- C4: the stationarity check declares a series stationary exactly when the
unit-root test p-value is at most 0.05, the first difference is the series
of consecutive differences with the first element dropped, and the
recommended differencing order is 1 exactly when the original series is
non-stationary while its first difference is stationary, and 0 otherwise. -/
theorem stationarity_rule_and_differencing_order (adfPValue : List ℚ → ℚ)
    (ts : List ℚ) :
    (check_stationarity adfPValue ts = true ↔ adfPValue ts ≤ 5 / 100) ∧
    (firstDifference ts).length = ts.length - 1 ∧
    (∀ i, i + 1 < ts.length →
      (firstDifference ts).getD i 0 = ts.getD (i + 1) 0 - ts.getD i 0) ∧
    (d_param adfPValue ts = 1 ↔
      check_stationarity adfPValue ts = false ∧
      check_stationarity adfPValue (firstDifference ts) = true) ∧
    (d_param adfPValue ts = 0 ↔
      ¬(check_stationarity adfPValue ts = false ∧
        check_stationarity adfPValue (firstDifference ts) = true)) := by
  refine ⟨?_, firstDifference_length ts, fun i h => firstDifference_getD ts i h, ?_, ?_⟩
  · simp [check_stationarity]
  · unfold d_param
    split_ifs with h
    · simp only [true_iff]
      exact ⟨Bool.not_eq_true _ ▸ (by simpa using h.1), h.2⟩
    · simp only [OfNat.zero_ne_ofNat, false_iff]
      intro hcon
      exact h ⟨by simp [hcon.1], hcon.2⟩
  · unfold d_param
    split_ifs with h
    · simp only [OfNat.ofNat_ne_zero, false_iff, not_not]
      exact ⟨by simpa using h.1, h.2⟩
    · simp only [true_iff]
      intro hcon
      exact h ⟨by simp [hcon.1], hcon.2⟩

/-- Demonstration p-value oracle: 0.1 on three-point series, 0.01 otherwise. -/
def demoAdf : List ℚ → ℚ := fun l => if l.length = 3 then 1 / 10 else 1 / 100

/-- Demonstration series for the stationarity analysis. -/
def demoSeries : List ℚ := [1, 4, 9]

/-- Witness for C4: on the demonstration series the original is declared
non-stationary, its first difference stationary, hence d = 1, and the first
difference entry at index 0 is 4 - 1. -/
theorem stationarity_rule_and_differencing_order_witness :
    (firstDifference demoSeries).getD 0 0 = demoSeries.getD 1 0 - demoSeries.getD 0 0 ∧
    d_param demoAdf demoSeries = 1 := by
  have main := stationarity_rule_and_differencing_order demoAdf demoSeries
  refine ⟨main.2.2.1 0 (by decide), main.2.2.2.1.mpr ⟨?_, ?_⟩⟩
  · simp only [check_stationarity, demoAdf, demoSeries]
    norm_num
  · simp only [check_stationarity, demoAdf, demoSeries, firstDifference]
    norm_num

theorem zip_getD {α β : Type} : ∀ (l₁ : List α) (l₂ : List β) (i : ℕ) (d₁ : α) (d₂ : β),
    i < l₁.length → i < l₂.length →
    (l₁.zip l₂).getD i (d₁, d₂) = (l₁.getD i d₁, l₂.getD i d₂)
  | [], _, i, _, _, h, _ => by simp at h
  | _ :: _, [], i, _, _, _, h => by simp at h
  | a :: l₁, b :: l₂, 0, d₁, d₂, _, _ => by simp
  | a :: l₁, b :: l₂, i + 1, d₁, d₂, h₁, h₂ => by
    simpa using zip_getD l₁ l₂ i d₁ d₂ (by simpa using h₁) (by simpa using h₂)

theorem forecastDates_length (lastDate : ℤ) (steps : ℕ) :
    (forecastDates lastDate steps).length = steps := by
  rw [forecastDates, List.length_map, List.length_range]

theorem forecastDates_getD (lastDate : ℤ) (steps i : ℕ) (h : i < steps) :
    (forecastDates lastDate steps).getD i 0 = lastDate + 1 + i := by
  unfold forecastDates
  rw [List.getD_eq_getElem _ _ (by simpa using h)]
  simp

/-- C5: for every fitted model (abstracted as its predict and conf-int
outputs), requested step count and nonempty input index, forecast_2025
produces exactly steps forecast points and steps interval rows, whose
timestamps start one frequency unit after the last input timestamp and
advance by one unit per step, and whose values are the model outputs paired
index-for-index with those timestamps. -/
theorem forecast_aligned_contiguous_dates (predict : ℕ → List ℚ)
    (confInt : ℕ → List (ℚ × ℚ)) (steps : ℕ) (tsIndex : List ℤ)
    (hne : tsIndex ≠ [])
    (hp : (predict steps).length = steps) (hc : (confInt steps).length = steps) :
    tsIndex.getLastD 0 = tsIndex.getLast hne ∧
    (forecast_2025 predict confInt (some steps) tsIndex).1.length = steps ∧
    (forecast_2025 predict confInt (some steps) tsIndex).2.length = steps ∧
    ∀ i, i < steps →
      ((forecast_2025 predict confInt (some steps) tsIndex).1.getD i (0, 0)).1
          = tsIndex.getLastD 0 + 1 + i ∧
      ((forecast_2025 predict confInt (some steps) tsIndex).2.getD i (0, (0, 0))).1
          = tsIndex.getLastD 0 + 1 + i ∧
      ((forecast_2025 predict confInt (some steps) tsIndex).1.getD i (0, 0)).2
          = (predict steps).getD i 0 ∧
      ((forecast_2025 predict confInt (some steps) tsIndex).2.getD i (0, (0, 0))).2
          = (confInt steps).getD i (0, 0) := by
  have hres : resolveForecastSteps (some steps) tsIndex.length = steps := rfl
  refine ⟨?_, ?_, ?_, ?_⟩
  · rw [List.getLastD_eq_getLast?, List.getLast?_eq_getLast tsIndex hne]
    rfl
  · show ((forecastDates (tsIndex.getLastD 0) steps).zip (predict steps)).length = steps
    rw [List.length_zip, forecastDates_length, hp]
    exact Nat.min_self steps
  · show ((forecastDates (tsIndex.getLastD 0) steps).zip (confInt steps)).length = steps
    rw [List.length_zip, forecastDates_length, hc]
    exact Nat.min_self steps
  · intro i hi
    have hd1 : (forecast_2025 predict confInt (some steps) tsIndex).1.getD i (0, 0)
        = ((forecastDates (tsIndex.getLastD 0) steps).getD i 0, (predict steps).getD i 0) :=
      zip_getD _ _ i 0 0 (by rw [forecastDates_length]; exact hi)
        (show i < (predict steps).length from by rw [hp]; exact hi)
    have hd2 : (forecast_2025 predict confInt (some steps) tsIndex).2.getD i (0, (0, 0))
        = ((forecastDates (tsIndex.getLastD 0) steps).getD i 0, (confInt steps).getD i (0, 0)) :=
      zip_getD _ _ i 0 (0, 0) (by rw [forecastDates_length]; exact hi)
        (show i < (confInt steps).length from by rw [hc]; exact hi)
    rw [hd1, hd2, forecastDates_getD _ _ _ hi]
    exact ⟨rfl, rfl, rfl, rfl⟩

/-- Demonstration point-forecast output: constant 5. -/
def demoPredict : ℕ → List ℚ := fun s => List.replicate s 5

/-- Demonstration confidence-interval output: constant (4, 6). -/
def demoCI : ℕ → List (ℚ × ℚ) := fun s => List.replicate s (4, 6)

/-- Witness for C5 at a two-step forecast over the index [10]: both outputs
have two rows and row 0 sits at timestamp 11 with the model values. -/
theorem forecast_aligned_contiguous_dates_witness :
    (forecast_2025 demoPredict demoCI (some 2) [10]).1.length = 2 ∧
    ((forecast_2025 demoPredict demoCI (some 2) [10]).1.getD 0 (0, 0)).1 = 11 ∧
    ((forecast_2025 demoPredict demoCI (some 2) [10]).2.getD 0 (0, (0, 0))).1 = 11 ∧
    ((forecast_2025 demoPredict demoCI (some 2) [10]).1.getD 0 (0, 0)).2 = 5 := by
  have main := forecast_aligned_contiguous_dates demoPredict demoCI 2 [10]
    (by decide) (by simp [demoPredict]) (by simp [demoCI])
  obtain ⟨-, hlen, -, hrow⟩ := main
  obtain ⟨h1, h2, h3, -⟩ := hrow 0 (by decide)
  refine ⟨hlen, ?_, ?_, ?_⟩
  · rw [h1]; rfl
  · rw [h2]; rfl
  · rw [h3]; rfl

theorem bucketRange_pairwise (bucket : ℤ → ℤ) (dates : List ℤ) :
    List.Pairwise (· < ·) (bucketRange bucket dates) := by
  unfold bucketRange
  split
  · exact List.Pairwise.nil
  · rw [List.pairwise_map]
    exact (List.pairwise_lt_range _).imp (fun hab => by omega)

theorem resampleMean_map_fst (bucket : ℤ → ℤ) (rows : List (ℤ × ℚ)) :
    (resampleMean bucket rows).map Prod.fst
      = bucketRange bucket (rows.map (fun r => r.1)) := by
  unfold resampleMean
  rw [List.map_map]
  exact List.map_id _

theorem resampleSize_map_fst (bucket : ℤ → ℤ) (rows : List (ℤ × ℚ)) :
    (resampleSize bucket rows).map Prod.fst
      = bucketRange bucket (rows.map (fun r => r.1)) := by
  unfold resampleSize
  rw [List.map_map]
  exact List.map_id _

theorem dropna_fst_sublist : ∀ (ts : List (ℤ × Option ℚ)),
    ((dropna ts).map Prod.fst).Sublist (ts.map Prod.fst)
  | [] => List.Sublist.slnil
  | (b, none) :: rest => by
    have ih := dropna_fst_sublist rest
    simp only [dropna, List.filterMap_cons, Option.map_none', List.map_cons] at *
    exact ih.cons b
  | (b, some v) :: rest => by
    have ih := dropna_fst_sublist rest
    simp only [dropna, List.filterMap_cons, Option.map_some', List.map_cons] at *
    exact ih.cons₂ b

theorem price_series_sorted (bucket : ℤ → ℤ) (rows : List (ℤ × ℚ)) :
    List.Sorted (· < ·) ((dropna (resampleMean bucket rows)).map Prod.fst) := by
  have h1 : List.Pairwise (· < ·) ((resampleMean bucket rows).map Prod.fst) := by
    rw [resampleMean_map_fst]
    exact bucketRange_pairwise bucket _
  exact h1.sublist (dropna_fst_sublist _)

theorem volume_series_sorted (bucket : ℤ → ℤ) (rows : List (ℤ × ℚ)) :
    List.Sorted (· < ·) ((resampleSize bucket rows).map Prod.fst) := by
  have h1 := resampleSize_map_fst bucket rows
  rw [List.Sorted, h1]
  exact bucketRange_pairwise bucket _

/-- C6: every series the builders return (mean-price mode at weekly, monthly
or quarterly frequency; transaction-count mode at monthly or weekly
frequency, for any date-to-bucket calendar maps) has strictly increasing
timestamps and hence no duplicate timestamps. -/
theorem series_builder_sorted_no_duplicates (perW perM perQ : ℤ → ℤ)
    (df : List PropertyRow) (freq : String) (ts : List (ℤ × ℚ))
    (hts : prepare_london_time_series perW perM perQ df freq = Except.ok ts)
    (perM2 perW2 : ℤ → ℤ) (df2 : List PropertyRow) (freq2 : String)
    (vs : List (ℤ × ℕ))
    (hvs : prepare_london_sales_volume_time_series perM2 perW2 df2 freq2 = Except.ok vs) :
    (List.Sorted (· < ·) (ts.map Prod.fst) ∧ (ts.map Prod.fst).Nodup) ∧
    (List.Sorted (· < ·) (vs.map Prod.fst) ∧ (vs.map Prod.fst).Nodup) := by
  constructor
  · unfold prepare_london_time_series at hts
    split_ifs at hts with h1 h2 h3
    · injection hts with h
      subst h
      exact ⟨price_series_sorted perW _, (price_series_sorted perW _).nodup⟩
    · injection hts with h
      subst h
      exact ⟨price_series_sorted perM _, (price_series_sorted perM _).nodup⟩
    · injection hts with h
      subst h
      exact ⟨price_series_sorted perQ _, (price_series_sorted perQ _).nodup⟩
  · unfold prepare_london_sales_volume_time_series at hvs
    split_ifs at hvs with h1 h2
    · injection hvs with h
      subst h
      exact ⟨volume_series_sorted perM2 _, (volume_series_sorted perM2 _).nodup⟩
    · injection hvs with h
      subst h
      exact ⟨volume_series_sorted perW2 _, (volume_series_sorted perW2 _).nodup⟩

/-- Demonstration property table with two London rows and one non-London row. -/
def demoTable : List PropertyRow :=
  [⟨100, 0, "SW"⟩, ⟨200, 5, "XX"⟩, ⟨50, 3, "NW"⟩]

/-- Witness for C6: on the demonstration table with identity bucket maps the
volume builder yields the contiguous buckets 0..3 (empty buckets filled with
count 0), strictly sorted; the price builder on a table that is empty after
the London filter yields the empty series. -/
theorem series_builder_sorted_no_duplicates_witness :
    prepare_london_time_series id id id [⟨1, 0, "XX"⟩] "Q" = Except.ok [] ∧
    prepare_london_sales_volume_time_series id id demoTable "M"
      = Except.ok [(0, 1), (1, 0), (2, 0), (3, 1)] ∧
    List.Sorted (· < ·) (([] : List (ℤ × ℚ)).map Prod.fst) ∧
    List.Sorted (· < ·) (([(0, 1), (1, 0), (2, 0), (3, 1)] : List (ℤ × ℕ)).map Prod.fst) ∧
    (([(0, 1), (1, 0), (2, 0), (3, 1)] : List (ℤ × ℕ)).map Prod.fst).Nodup := by
  have h1 : prepare_london_time_series id id id [⟨1, 0, "XX"⟩] "Q" = Except.ok [] := by
    decide
  have h2 : prepare_london_sales_volume_time_series id id demoTable "M"
      = Except.ok [(0, 1), (1, 0), (2, 0), (3, 1)] := by decide
  have main := series_builder_sorted_no_duplicates id id id [⟨1, 0, "XX"⟩] "Q" _ h1
    id id demoTable "M" _ h2
  exact ⟨h1, h2, main.1.1, main.2.1, main.2.2⟩

/-- C7 counterexample: on an input table with zero rows the price series
builder returns the empty series as a normal Ok result; it does not fail
with any error (and the code has no EmptyInputError at all). -/
theorem empty_input_returns_series_counterexample :
    prepare_london_time_series id id id [] "W" = Except.ok [] := by decide

/-- C7 amended: for every input table with zero rows after the London filter
and every accepted frequency, the series builder returns the empty series as
a normal non-error result instead of failing. -/
theorem empty_input_yields_empty_series (perW perM perQ : ℤ → ℤ)
    (df : List PropertyRow) (freq : String)
    (hempty : filter_london_properties df = [])
    (hfreq : freq = "W" ∨ freq = "M" ∨ freq = "Q") :
    prepare_london_time_series perW perM perQ df freq = Except.ok [] := by
  rcases hfreq with h | h | h <;> subst h <;>
    simp [prepare_london_time_series, hempty, resampleMean, bucketRange, dropna]

/-- Witness for C7 (amended form): a table holding only a non-London row is
empty after filtering and yields the empty series under monthly frequency. -/
theorem empty_input_yields_empty_series_witness :
    filter_london_properties [⟨50, 2, "ZZ"⟩] = [] ∧
    prepare_london_time_series id id id [⟨50, 2, "ZZ"⟩] "M" = Except.ok [] :=
  ⟨by decide, empty_input_yields_empty_series id id id [⟨50, 2, "ZZ"⟩] "M"
    (by decide) (Or.inr (Or.inl rfl))⟩

/-- C10: the price series builder accepts exactly the frequencies W, M and
Q and the sales-volume series builder accepts exactly M and W; on any other
frequency they raise ValueError and produce no series, and on the accepted
frequencies they return a series and no error. -/
theorem frequency_validation_exact (perW perM perQ : ℤ → ℤ)
    (df : List PropertyRow) (freq : String)
    (perM2 perW2 : ℤ → ℤ) (df2 : List PropertyRow) (freq2 : String) :
    ((∃ msg, prepare_london_time_series perW perM perQ df freq
        = Except.error (PrepError.valueError msg))
      ↔ ¬(freq = "W" ∨ freq = "M" ∨ freq = "Q")) ∧
    ((∃ ts, prepare_london_time_series perW perM perQ df freq = Except.ok ts)
      ↔ (freq = "W" ∨ freq = "M" ∨ freq = "Q")) ∧
    ((∃ msg, prepare_london_sales_volume_time_series perM2 perW2 df2 freq2
        = Except.error (PrepError.valueError msg))
      ↔ ¬(freq2 = "M" ∨ freq2 = "W")) ∧
    ((∃ vs, prepare_london_sales_volume_time_series perM2 perW2 df2 freq2 = Except.ok vs)
      ↔ (freq2 = "M" ∨ freq2 = "W")) := by
  refine ⟨?_, ?_, ?_, ?_⟩
  · unfold prepare_london_time_series
    split_ifs with h1 h2 h3 <;> simp_all
  · unfold prepare_london_time_series
    split_ifs with h1 h2 h3 <;> simp_all
  · unfold prepare_london_sales_volume_time_series
    split_ifs with h1 h2 <;> simp_all
  · unfold prepare_london_sales_volume_time_series
    split_ifs with h1 h2 <;> simp_all
